import Mathlib

/-!
Verification development for the Lebanon mumps dashboard
(`LebanonDiseases.py`).  The data-preparation pipeline is shallowly
embedded: a pandas `DataFrame` is a list of rows, each row an association
list from column names to cell values.  Column derivations
(`load_and_process_data`), the coordinate join (`add_coordinates`) and the
groupby-sum aggregates used by the bubble map, the line chart and the bar
chart are translated from the source and their stated properties proved.
-/

set_option autoImplicit false

/-! ### Definitions -/

/-- A cell value of the dataframe: strings, 64-bit-style integers
(modelled as `Int`), exact decimal coordinates (modelled as `ℚ`),
month-year timestamps, and missing data (`NaN`/`None`). -/
inductive Val where
  | vStr : String → Val
  | vInt : Int → Val
  | vRat : ℚ → Val
  | vDate : Nat → Nat → Val
  | vNone : Val
deriving DecidableEq, Repr

/-- A row: association list from column name to value.  Pandas column
names are unique per frame; lookups take the first matching entry. -/
abbrev Row := List (String × Val)

/-- A dataframe: a list of rows. -/
abbrev DataFrame := List Row

/-- Look up a column's value in a row (first matching entry). -/
def Row.get? : Row → String → Option Val
  | [], _ => none
  | p :: r, c => if p.1 = c then some p.2 else Row.get? r c

/-- Column assignment `df[c] = v` restricted to one row: replace the first
entry with key `c`, or append the new column at the end. -/
def Row.set : Row → String → Val → Row
  | [], c, v => [(c, v)]
  | p :: r, c, v => if p.1 = c then (c, v) :: r else p :: Row.set r c v

/-- `df.rename(columns={o: n})` restricted to one row: every entry keyed
`o` is re-keyed `n`; if no entry is keyed `o` this is a no-op. -/
def Row.renameCol : Row → String → String → Row
  | [], _, _ => []
  | p :: r, o, n =>
      if p.1 = o then (n, p.2) :: Row.renameCol r o n
      else p :: Row.renameCol r o n

/-- Python's `str.split(sep)` for a one-character separator, over the
character list: `"".split(sep) = [""]`, empty pieces are kept. -/
def splitOnChar (sep : Char) : List Char → List (List Char)
  | [] => [[]]
  | c :: cs =>
      match splitOnChar sep cs with
      | [] => [[]]
      | h :: t => if c = sep then [] :: h :: t else (c :: h) :: t

/-- `x.split('/')[-1]`: last `/`-separated segment of a string. -/
def lastSegment (s : String) : String :=
  String.mk ((splitOnChar '/' s.data).getLastD [])

/-- `.replace('_', ' ')`: single-character replacement is a character map. -/
def underscoresToSpaces (s : String) : String :=
  String.mk (s.data.map (fun c => if c = '_' then ' ' else c))

/-- The fixed alias table `{'North Governorate': 'Tripoli', 'North Lebanon': 'Tripoli'}`
applied as `Series.replace` does: exact matches are substituted, everything
else passes through. -/
def regionAlias (s : String) : String :=
  if s = "North Governorate" then "Tripoli"
  else if s = "North Lebanon" then "Tripoli"
  else s

/-- Full region normalization: last path segment, underscores to spaces,
then the alias remap. -/
def normalizeRegion (x : String) : String :=
  regionAlias (underscoresToSpaces (lastSegment x))

/-- Nanosecond-timestamp range check for the first day of month `m` of
year `y`: `pd.to_datetime` rejects dates outside
`[1677-09-21, 2262-04-11]` with `OutOfBoundsDatetime`. -/
def inTimestampBounds (m y : Nat) : Prop :=
  (1677 < y ∨ (y = 1677 ∧ 10 ≤ m)) ∧ (y < 2262 ∨ (y = 2262 ∧ m ≤ 4))

instance (m y : Nat) : Decidable (inTimestampBounds m y) := by
  unfold inTimestampBounds; infer_instance

/-- Digits of a decimal numeral, most significant first, to a `Nat`. -/
def digitsToNat : List Char → Nat → Nat
  | [], acc => acc
  | c :: cs, acc => digitsToNat cs (acc * 10 + (c.toNat - 48))

/-- Parse a non-empty all-digit character list as a decimal number, the way
`strptime`'s `\d{1,n}` capture groups read their fields. -/
def parseDigits? (l : List Char) : Option Nat :=
  if l ≠ [] ∧ l.all Char.isDigit then some (digitsToNat l 0) else none

/-- `pd.to_datetime(s, format='%m-%Y')` on one string: succeeds exactly on
`MM-YYYY` (month `1..12`, one or two digits; year at most four digits,
within the representable timestamp range), returning the month and year. -/
def parseMonthYear (s : String) : Option (Nat × Nat) :=
  match splitOnChar '-' s.data with
  | [ms, ys] =>
      match parseDigits? ms, parseDigits? ys with
      | some m, some y =>
          if ms.length ≤ 2 ∧ 1 ≤ m ∧ m ≤ 12 ∧ ys.length ≤ 4 ∧ inTimestampBounds m y
          then some (m, y)
          else none
      | _, _ => none
  | _ => none

/-- Failure modes of `load_and_process_data`: the spec's `LoadError`.
`fileMissing` models `FileNotFoundError` from `pd.read_csv`;
`columnError` models `KeyError`/`AttributeError` when a needed column is
absent or holds a non-string; `periodParseError` models the
`ValueError`/`OutOfBoundsDatetime` raised by `pd.to_datetime`. -/
inductive LoadError where
  | fileMissing : LoadError
  | columnError : String → LoadError
  | periodParseError : String → LoadError
deriving DecidableEq, Repr

/-- `df['Region'] = df['refArea'].apply(lambda x: x.split('/')[-1].replace('_',' '))`
on one row. -/
def deriveRegionRow (r : Row) : Except LoadError Row :=
  match r.get? "refArea" with
  | some (Val.vStr x) =>
      Except.ok (r.set "Region" (Val.vStr (underscoresToSpaces (lastSegment x))))
  | _ => Except.error (LoadError.columnError "refArea")

/-- `df['Region'] = df['Region'].replace({...})` on one row; non-string
cells pass through unchanged, as `Series.replace` leaves them. -/
def aliasRegionRow (r : Row) : Row :=
  match r.get? "Region" with
  | some (Val.vStr s) => r.set "Region" (Val.vStr (regionAlias s))
  | _ => r

/-- `df['Month-Year'] = pd.to_datetime(df['refPeriod'].apply(lambda x: x.split('/')[-1]), format='%m-%Y')`
on one row. -/
def deriveMonthYearRow (r : Row) : Except LoadError Row :=
  match r.get? "refPeriod" with
  | some (Val.vStr x) =>
      match parseMonthYear (lastSegment x) with
      | some (m, y) => Except.ok (r.set "Month-Year" (Val.vDate m y))
      | none => Except.error (LoadError.periodParseError (lastSegment x))
  | _ => Except.error (LoadError.columnError "refPeriod")

/-- `df['Year'] = df['Month-Year'].dt.year` on one row. -/
def deriveYearRow (r : Row) : Except LoadError Row :=
  match r.get? "Month-Year" with
  | some (Val.vDate _ y) => Except.ok (r.set "Year" (Val.vInt (Int.ofNat y)))
  | _ => Except.error (LoadError.columnError "Month-Year")

/-- Apply a fallible elementwise column derivation to every row; the first
raised error aborts the whole load, as an uncaught pandas exception does. -/
def mapE (f : Row → Except LoadError Row) : List Row → Except LoadError (List Row)
  | [] => Except.ok []
  | r :: rs =>
      match f r with
      | Except.error e => Except.error e
      | Except.ok r' =>
          match mapE f rs with
          | Except.error e => Except.error e
          | Except.ok rs' => Except.ok (r' :: rs')

/-- `load_and_process_data(path)`.  The file read is modelled by the
`Option DataFrame` argument: `none` is a missing/unreadable file, `some df`
the parsed CSV contents.  Column steps are applied in source order:
Region derivation, alias remap, Month-Year parse, Year extraction, and the
rename of 'Number of cases' to 'Cases'. -/
def load_and_process_data (file : Option DataFrame) : Except LoadError DataFrame :=
  match file with
  | none => Except.error LoadError.fileMissing
  | some df =>
      match mapE deriveRegionRow df with
      | Except.error e => Except.error e
      | Except.ok df1 =>
          match mapE deriveMonthYearRow (df1.map aliasRegionRow) with
          | Except.error e => Except.error e
          | Except.ok df3 =>
              match mapE deriveYearRow df3 with
              | Except.error e => Except.error e
              | Except.ok df4 =>
                  Except.ok (df4.map (fun r => Row.renameCol r "Number of cases" "Cases"))

/-- The static region-to-coordinate table, as in the source. -/
def REGION_COORDS : List (String × ℚ × ℚ) :=
  [("Beqaa Valley", (33.8467, 35.9020)),
   ("South Governorate", (33.2721, 35.2033)),
   ("Beirut", (33.8938, 35.5018)),
   ("Mount Lebanon", (33.8333, 35.5833)),
   ("Tripoli", (34.4367, 35.8308)),
   ("Nabatieh", (33.3772, 35.4839)),
   ("Baalbek-Hermel", (34.1796, 36.1508)),
   ("Akkar", (34.5431, 36.0771))]

/-- Dictionary lookup `REGION_COORDS.get(r, ...)` without the default. -/
def coordsOf (s : String) : Option (ℚ × ℚ) :=
  (REGION_COORDS.find? (fun p => p.1 == s)).map (fun p => p.2)

/-- The table's key set. -/
def coordKeys : List String := REGION_COORDS.map (fun p => p.1)

/-- `REGION_COORDS.get(r, (None, None))[0]` for one row: the latitude cell,
`None` when the region is absent from the table or not a string. -/
def latOf (r : Row) : Val :=
  match r.get? "Region" with
  | some (Val.vStr s) =>
      match coordsOf s with
      | some c => Val.vRat c.1
      | none => Val.vNone
  | _ => Val.vNone

/-- `REGION_COORDS.get(r, (None, None))[1]` for one row: the longitude cell. -/
def lonOf (r : Row) : Val :=
  match r.get? "Region" with
  | some (Val.vStr s) =>
      match coordsOf s with
      | some c => Val.vRat c.2
      | none => Val.vNone
  | _ => Val.vNone

/-- The two in-place column assignments `df['lat'] = ...; df['lon'] = ...`
applied to one row.  `lonOf` reads only the 'Region' cell, which the 'lat'
assignment does not touch, so both lookups are taken on the original row. -/
def decorateRow (r : Row) : Row :=
  (r.set "lat" (latOf r)).set "lon" (lonOf r)

/-- The state of the dataframe object passed to `add_coordinates` after
the function body's two in-place column assignments, just before
`dropna` builds the returned copy. -/
def add_coordinates_state (df : DataFrame) : DataFrame :=
  df.map decorateRow

/-- A cell that `dropna` keeps: present and not `NaN`/`None`. -/
def isPresent (v : Option Val) : Bool :=
  match v with
  | some Val.vNone => false
  | some _ => true
  | none => false

/-- `df.dropna(subset=['lat', 'lon'])`. -/
def dropnaLatLon (df : DataFrame) : DataFrame :=
  df.filter (fun r => isPresent (r.get? "lat") && isPresent (r.get? "lon"))

/-- `add_coordinates(df)`: the returned value (the spec's
`WithCoordinates`). -/
def add_coordinates (df : DataFrame) : DataFrame :=
  dropnaLatLon (add_coordinates_state df)

/-- The grouping key of a row for `df.groupby(ks)`: the tuple of key-cell
values; `none` when a key cell is missing or `NaN` (pandas' default
`dropna=True` drops such rows from every group). -/
def keyTuple (ks : List String) (r : Row) : Option (List Val) :=
  match ks with
  | [] => some []
  | k :: kt =>
      match r.get? k with
      | some Val.vNone => none
      | some v =>
          match keyTuple kt r with
          | some vs => some (v :: vs)
          | none => none
      | none => none

/-- Read an integer cell; non-integer cells count 0, as pandas' `sum`
skips `NaN`. -/
def cellInt (r : Row) (c : String) : Int :=
  match r.get? c with
  | some (Val.vInt n) => n
  | _ => 0

/-- Sum of an integer column over a frame. -/
def sumVal (df : DataFrame) (c : String) : Int :=
  (df.map (fun r => cellInt r c)).sum

/-- `df.groupby(ks, as_index=False)[vc].sum()` (equally,
`.groupby(ks)[vc].sum().reset_index()`): one row per distinct key tuple,
holding the key cells and the group's sum.  Group rows are listed in
first-occurrence order; pandas sorts them, but no property below depends
on row order. -/
def groupbySum (df : DataFrame) (ks : List String) (vc : String) : DataFrame :=
  ((df.filterMap (keyTuple ks)).dedup).map (fun kv =>
    (ks.zip kv) ++ [(vc, Val.vInt (sumVal (df.filter (fun r => decide (keyTuple ks r = some kv))) vc))])

/-- Does the row's 'Region' cell hold a key of `REGION_COORDS`? -/
def regionInCoords (r : Row) : Bool :=
  match r.get? "Region" with
  | some (Val.vStr s) => (coordsOf s).isSome
  | _ => false

/-- The dataframe behind the bubble map
(`plot_bubble_map`, lines 46-48): year filter, groupby-sum on 'Region',
then the coordinate join; the subsequent 'Hover' column and the plotly
figure are rendering. -/
def plot_bubble_map_data (df : DataFrame) (year : Int) : DataFrame :=
  add_coordinates
    (groupbySum (df.filter (fun r => decide (r.get? "Year" = some (Val.vInt year)))) ["Region"] "Cases")

/-- The line-chart aggregate (`main`, lines 119-120):
`df[df['Region'].isin(regions)].groupby(['Year','Region'])['Cases'].sum().reset_index()`. -/
def lineAgg (df : DataFrame) (regions : List String) : DataFrame :=
  groupbySum
    (df.filter (fun r =>
      match r.get? "Region" with
      | some (Val.vStr s) => decide (s ∈ regions)
      | _ => false))
    ["Year", "Region"] "Cases"

/-- The bar-chart aggregate (`main`, line 159):
`df.groupby('Region')['Cases'].sum().reset_index()`; the renaming of the
sum column to 'Total Cases' and the descending sort are rendering. -/
def region_totals (df : DataFrame) : DataFrame :=
  groupbySum df ["Region"] "Cases"

/-- The row built by `groupbySum _ ['Region'] 'Cases'` for one group key:
the region cell and the group's summed 'Cases' cell. -/
def regionGroupRow (df : DataFrame) (kv : List Val) : Row :=
  (["Region"].zip kv) ++
    [("Cases", Val.vInt (sumVal (df.filter (fun r => decide (keyTuple ["Region"] r = some kv))) "Cases"))]

/-- A concrete normalized record with a region from the coordinate table. -/
def beirutRow : Row :=
  [("Region", Val.vStr "Beirut"), ("Year", Val.vInt 2019), ("Cases", Val.vInt 5)]

/-- A small concrete normalized record set used to instantiate the
universally quantified theorems: two regions in the coordinate table, one
region ('Paris') outside it, over two years. -/
def sampleRecords : DataFrame :=
  [beirutRow,
   [("Region", Val.vStr "Paris"), ("Year", Val.vInt 2019), ("Cases", Val.vInt 2)],
   [("Region", Val.vStr "Akkar"), ("Year", Val.vInt 2020), ("Cases", Val.vInt 7)]]

/-- A concrete raw CSV frame matching the spec's worked example: a
`Beqaa_Valley` row and a `North_Lebanon` row, both for period `01-2019`. -/
def sampleCSV : DataFrame :=
  [[("refArea", Val.vStr "http://ex.org/page/Beqaa_Valley"),
    ("refPeriod", Val.vStr "http://ex.org/page/01-2019"),
    ("Number of cases", Val.vInt 5)],
   [("refArea", Val.vStr "http://ex.org/page/North_Lebanon"),
    ("refPeriod", Val.vStr "http://ex.org/page/01-2019"),
    ("Number of cases", Val.vInt 3)]]

/-- The loaded form of `sampleCSV` (computed by evaluation). -/
def sampleLoaded : DataFrame :=
  ((load_and_process_data (some sampleCSV)).toOption).getD []

/-- A raw CSV whose area normalizes to 'Paris', a region outside the
coordinate table. -/
def parisCSV : DataFrame :=
  [[("refArea", Val.vStr "x/Paris"),
    ("refPeriod", Val.vStr "x/01-2019"),
    ("Number of cases", Val.vInt 1)]]

/-- The loaded form of `parisCSV` (computed by evaluation). -/
def parisLoaded : DataFrame :=
  ((load_and_process_data (some parisCSV)).toOption).getD []

/-- A raw CSV with an invalid period segment `13-2019`. -/
def badPeriodCSV : DataFrame :=
  [[("refArea", Val.vStr "x/Beirut"),
    ("refPeriod", Val.vStr "x/13-2019"),
    ("Number of cases", Val.vInt 2)]]

/-- A raw CSV whose case-count column is named neither 'Number of cases'
nor 'Cases'. -/
def noCasesCSV : DataFrame :=
  [[("refArea", Val.vStr "x/Beirut"),
    ("refPeriod", Val.vStr "x/02-2020"),
    ("case count", Val.vInt 4)]]

/-- Two years of records for one region (Beqaa Valley). -/
def twoYearRecords : DataFrame :=
  [[("Region", Val.vStr "Beqaa Valley"), ("Year", Val.vInt 2018), ("Cases", Val.vInt 4)],
   [("Region", Val.vStr "Beqaa Valley"), ("Year", Val.vInt 2019), ("Cases", Val.vInt 6)]]

/-- A one-row frame whose region is outside the coordinate table; used to
exhibit the in-place column additions of `add_coordinates`. -/
def parisFrame : DataFrame :=
  [[("Region", Val.vStr "Paris"), ("Cases", Val.vInt 3)]]

/-- The shape of a row of the line-chart aggregate: 'Year', 'Region' and
summed 'Cases' cells. -/
def lineRow (y : Int) (s : String) (t : Int) : Row :=
  [("Year", Val.vInt y), ("Region", Val.vStr s), ("Cases", Val.vInt t)]

/-- Does a row hold a string in the given column? -/
def hasStrCell (r : Row) (c : String) : Bool :=
  match r.get? c with
  | some (Val.vStr _) => true
  | _ => false

/-! ### Theorems -/

theorem Row.get?_set_self (r : Row) (c : String) (v : Val) :
    (Row.set r c v).get? c = some v := by
  induction r with
  | nil => rw [Row.set, Row.get?, if_pos rfl]
  | cons p t ih =>
      rw [Row.set]
      by_cases hp : p.1 = c
      · rw [if_pos hp, Row.get?, if_pos rfl]
      · rw [if_neg hp, Row.get?, if_neg hp, ih]

theorem Row.get?_set_ne (r : Row) (c c' : String) (v : Val) (h : c' ≠ c) :
    (Row.set r c v).get? c' = r.get? c' := by
  induction r with
  | nil =>
      rw [Row.set, Row.get?, Row.get?, if_neg (fun hh => h hh.symm), Row.get?]
  | cons p t ih =>
      rw [Row.set]
      by_cases hp : p.1 = c
      · rw [if_pos hp, Row.get?, Row.get?, if_neg (fun hh => h hh.symm),
          if_neg (fun hh => h (hp.symm.trans hh).symm)]
      · rw [if_neg hp, Row.get?, Row.get?, ih]

theorem Row.get?_rename_ne (r : Row) (o n c : String) (ho : c ≠ o) (hn : c ≠ n) :
    (Row.renameCol r o n).get? c = r.get? c := by
  induction r with
  | nil => rw [Row.renameCol]
  | cons p t ih =>
      rw [Row.renameCol]
      by_cases hp : p.1 = o
      · rw [if_pos hp, Row.get?, Row.get?, if_neg (fun hh => hn hh.symm),
          if_neg (fun hh => ho (hp.symm.trans hh).symm), ih]
      · rw [if_neg hp, Row.get?, Row.get?, ih]

theorem Row.rename_of_get?_none (r : Row) (o n : String)
    (h : r.get? o = none) : Row.renameCol r o n = r := by
  induction r with
  | nil => rw [Row.renameCol]
  | cons p t ih =>
      rw [Row.get?] at h
      by_cases hp : p.1 = o
      · rw [if_pos hp] at h
        exact absurd h (by simp)
      · rw [if_neg hp] at h
        rw [Row.renameCol, if_neg hp, ih h]

example : normalizeRegion "http://ex.org/page/Beqaa_Valley" = "Beqaa Valley" := by decide

example : normalizeRegion "http://ex.org/page/North_Lebanon" = "Tripoli" := by decide

example : normalizeRegion "x/North_Governorate" = "Tripoli" := by decide

example : parseMonthYear "01-2019" = some (1, 2019) := by decide

example : parseMonthYear "13-2019" = none := by decide

example : parseMonthYear "foo" = none := by decide

example : parseMonthYear "1-999" = none := by decide

theorem mapE_ok_mem (f : Row → Except LoadError Row) :
    ∀ (l l' : List Row), mapE f l = Except.ok l' →
      ∀ y ∈ l', ∃ x ∈ l, f x = Except.ok y := by
  intro l
  induction l with
  | nil =>
      intro l' h y hy
      rw [mapE] at h
      injection h with h
      subst h
      exact absurd hy (List.not_mem_nil y)
  | cons r rs ih =>
      intro l' h y hy
      rw [mapE] at h
      cases hf : f r with
      | error e => rw [hf] at h; cases h
      | ok r' =>
          rw [hf] at h
          cases hm : mapE f rs with
          | error e => rw [hm] at h; cases h
          | ok rs' =>
              rw [hm] at h
              injection h with h
              subst h
              rcases List.mem_cons.mp hy with hy | hy
              · exact ⟨r, List.mem_cons_self r rs, by rw [hy]; exact hf⟩
              · rcases ih rs' hm y hy with ⟨x, hx, hfx⟩
                exact ⟨x, List.mem_cons_of_mem r hx, hfx⟩

theorem mapE_ok_mem_rev (f : Row → Except LoadError Row) :
    ∀ (l l' : List Row), mapE f l = Except.ok l' →
      ∀ x ∈ l, ∃ y ∈ l', f x = Except.ok y := by
  intro l
  induction l with
  | nil =>
      intro l' _ x hx
      exact absurd hx (List.not_mem_nil x)
  | cons r rs ih =>
      intro l' h x hx
      rw [mapE] at h
      cases hf : f r with
      | error e => rw [hf] at h; cases h
      | ok r' =>
          rw [hf] at h
          cases hm : mapE f rs with
          | error e => rw [hm] at h; cases h
          | ok rs' =>
              rw [hm] at h
              injection h with h
              subst h
              rcases List.mem_cons.mp hx with hx | hx
              · exact ⟨r', List.mem_cons_self r' rs', by rw [hx]; exact hf⟩
              · rcases ih rs' hm x hx with ⟨y, hy, hfy⟩
                exact ⟨y, List.mem_cons_of_mem r' hy, hfy⟩

theorem mapE_ok_of_forall (f : Row → Except LoadError Row) :
    ∀ l : List Row, (∀ x ∈ l, ∃ y, f x = Except.ok y) →
      ∃ l', mapE f l = Except.ok l' := by
  intro l
  induction l with
  | nil => exact fun _ => ⟨[], rfl⟩
  | cons r rs ih =>
      intro h
      rcases h r (List.mem_cons_self r rs) with ⟨r', hr⟩
      rcases ih (fun x hx => h x (List.mem_cons_of_mem r hx)) with ⟨rs', hrs⟩
      exact ⟨r' :: rs', by rw [mapE, hr, hrs]⟩

theorem sum_filter_disjoint (w : Row → Int) (p q : Row → Bool)
    (hpq : ∀ r, p r = true → q r = false) :
    ∀ l : List Row,
      ((l.filter p).map w).sum + ((l.filter q).map w).sum
        = ((l.filter (fun r => p r || q r)).map w).sum := by
  intro l
  induction l with
  | nil => simp
  | cons a t ih =>
      cases hp : p a with
      | true =>
          have hq := hpq a hp
          simp [List.filter_cons, hp, hq]
          omega
      | false =>
          cases hq : q a with
          | true =>
              simp [List.filter_cons, hp, hq]
              omega
          | false =>
              simp [List.filter_cons, hp, hq]
              exact ih

theorem sum_over_groups (w : Row → Int) (κ : Row → Option (List Val)) :
    ∀ ks : List (List Val), ks.Nodup → ∀ l : List Row,
      (ks.map (fun kv => ((l.filter (fun r => decide (κ r = some kv))).map w).sum)).sum
        = ((l.filter (fun r =>
            match κ r with
            | some kv => decide (kv ∈ ks)
            | none => false)).map w).sum := by
  intro ks
  induction ks with
  | nil =>
      intro _ l
      have hnil : (l.filter (fun r =>
          match κ r with
          | some kv => decide (kv ∈ ([] : List (List Val)))
          | none => false)) = [] := by
        apply List.filter_eq_nil_iff.mpr
        intro a _
        cases h : κ a <;> simp [h]
      rw [List.map_nil, List.sum_nil, hnil, List.map_nil, List.sum_nil]
  | cons kv0 rest ih =>
      intro hnd l
      have hkv0 : kv0 ∉ rest := (List.nodup_cons.mp hnd).1
      have hdisj : ∀ r, decide (κ r = some kv0) = true →
          (match κ r with
           | some kv => decide (kv ∈ rest)
           | none => false) = false := by
        intro r h
        have h' : κ r = some kv0 := of_decide_eq_true h
        rw [h']
        simpa using hkv0
      rw [List.map_cons, List.sum_cons, ih (List.nodup_cons.mp hnd).2 l,
        sum_filter_disjoint w _ _ hdisj l]
      have hfe : List.filter
          (fun r => decide (κ r = some kv0) ||
            match κ r with
            | some kv => decide (kv ∈ rest)
            | none => false) l
          = List.filter
          (fun r =>
            match κ r with
            | some kv => decide (kv ∈ kv0 :: rest)
            | none => false) l := by
        apply List.filter_congr
        intro a _
        cases h : κ a with
        | none => simp [h]
        | some kv =>
            by_cases hkv : kv = kv0
            · simp [h, hkv]
            · simp [h, hkv, Option.some_inj]
      rw [hfe]

theorem Row.get?_zip_append (ks : List String) (kv : List Val) (c : String) (v : Val)
    (h : c ∉ ks) : Row.get? (ks.zip kv ++ [(c, v)]) c = some v := by
  induction ks generalizing kv with
  | nil =>
      rw [List.zip_nil_left, List.nil_append, Row.get?, if_pos rfl]
  | cons k kt ih =>
      have hk : ¬(k = c) := fun hh => h (by rw [← hh]; exact List.mem_cons_self k kt)
      cases kv with
      | nil => rw [List.zip_nil_right, List.nil_append, Row.get?, if_pos rfl]
      | cons v0 vt =>
          rw [List.zip_cons_cons, List.cons_append, Row.get?, if_neg hk,
            ih vt (fun hh => h (List.mem_cons_of_mem k hh))]

theorem keyTuple_single (c : String) (r : Row) (v : Val) :
    keyTuple [c] r = some [v] ↔ (r.get? c = some v ∧ v ≠ Val.vNone) := by
  rw [keyTuple]
  cases h : r.get? c with
  | none => simp
  | some w =>
      cases w <;> simp [keyTuple] <;>
        (intro hv; rw [← hv]; try simp)

theorem sumVal_groupbySum (df : DataFrame) (ks : List String) (vc : String)
    (hvc : vc ∉ ks) :
    sumVal (groupbySum df ks vc) vc
      = sumVal (df.filter (fun r => (keyTuple ks r).isSome)) vc := by
  have h1 : sumVal (groupbySum df ks vc) vc
      = (List.map (fun r => cellInt r vc)
          (List.map
            (fun kv => (ks.zip kv) ++
              [(vc, Val.vInt (sumVal (df.filter (fun r => decide (keyTuple ks r = some kv))) vc))])
            ((df.filterMap (keyTuple ks)).dedup))).sum := rfl
  have hstep : ∀ kv ∈ (df.filterMap (keyTuple ks)).dedup,
      ((fun r => cellInt r vc) ∘
        (fun kv => (ks.zip kv) ++
          [(vc, Val.vInt (sumVal (df.filter (fun r => decide (keyTuple ks r = some kv))) vc))])) kv
        = (fun kv =>
            ((df.filter (fun r => decide (keyTuple ks r = some kv))).map (fun r => cellInt r vc)).sum) kv := by
    intro kv _
    show cellInt ((ks.zip kv) ++ [(vc, Val.vInt _)]) vc = _
    unfold cellInt
    rw [Row.get?_zip_append ks kv vc _ hvc]
    rfl
  have hfe : List.filter
      (fun r =>
        match keyTuple ks r with
        | some kv => decide (kv ∈ (df.filterMap (keyTuple ks)).dedup)
        | none => false) df
      = List.filter (fun r => (keyTuple ks r).isSome) df := by
    apply List.filter_congr
    intro a ha
    cases h : keyTuple ks a with
    | none => simp
    | some kv =>
        simp only [Option.isSome_some]
        exact decide_eq_true (List.mem_dedup.mpr (List.mem_filterMap.mpr ⟨a, ha, h⟩))
  calc sumVal (groupbySum df ks vc) vc
      = (((df.filterMap (keyTuple ks)).dedup).map
          (fun kv =>
            ((df.filter (fun r => decide (keyTuple ks r = some kv))).map (fun r => cellInt r vc)).sum)).sum := by
        rw [h1, List.map_map]
        exact congrArg List.sum (List.map_congr_left hstep)
    _ = ((df.filter (fun r =>
          match keyTuple ks r with
          | some kv => decide (kv ∈ (df.filterMap (keyTuple ks)).dedup)
          | none => false)).map (fun r => cellInt r vc)).sum :=
        sum_over_groups (fun r => cellInt r vc) (keyTuple ks)
          ((df.filterMap (keyTuple ks)).dedup) (List.nodup_dedup _) df
    _ = sumVal (df.filter (fun r => (keyTuple ks r).isSome)) vc := by
        show ((List.filter _ df).map (fun r => cellInt r vc)).sum = _
        rw [hfe]
        rfl

theorem decorateRow_get?_lat (r : Row) : (decorateRow r).get? "lat" = some (latOf r) := by
  unfold decorateRow
  rw [Row.get?_set_ne _ _ _ _ (by decide), Row.get?_set_self]

theorem decorateRow_get?_lon (r : Row) : (decorateRow r).get? "lon" = some (lonOf r) := by
  unfold decorateRow
  rw [Row.get?_set_self]

theorem decorateRow_get?_ne (r : Row) (c : String) (h1 : c ≠ "lat") (h2 : c ≠ "lon") :
    (decorateRow r).get? c = r.get? c := by
  unfold decorateRow
  rw [Row.get?_set_ne _ _ _ _ h2, Row.get?_set_ne _ _ _ _ h1]

theorem keep_decorateRow (r : Row) :
    (isPresent ((decorateRow r).get? "lat") && isPresent ((decorateRow r).get? "lon"))
      = regionInCoords r := by
  rw [decorateRow_get?_lat, decorateRow_get?_lon]
  cases h : r.get? "Region" with
  | none => simp [latOf, lonOf, regionInCoords, isPresent, h]
  | some w =>
      cases w with
      | vStr s =>
          cases hc : coordsOf s <;>
            simp [latOf, lonOf, regionInCoords, isPresent, h, hc]
      | vInt n => simp [latOf, lonOf, regionInCoords, isPresent, h]
      | vRat q => simp [latOf, lonOf, regionInCoords, isPresent, h]
      | vDate m y => simp [latOf, lonOf, regionInCoords, isPresent, h]
      | vNone => simp [latOf, lonOf, regionInCoords, isPresent, h]

/-- `add_coordinates` returns exactly the rows whose region is a key of
the coordinate table, each decorated with its 'lat'/'lon' cells. -/
theorem add_coordinates_eq (df : DataFrame) :
    add_coordinates df = (df.filter regionInCoords).map decorateRow := by
  unfold add_coordinates add_coordinates_state dropnaLatLon
  rw [List.filter_map]
  congr 1
  apply List.filter_congr
  intro a _
  exact keep_decorateRow a

theorem sumVal_add_coordinates (df : DataFrame) (c : String)
    (h1 : c ≠ "lat") (h2 : c ≠ "lon") :
    sumVal (add_coordinates df) c = sumVal (df.filter regionInCoords) c := by
  rw [add_coordinates_eq]
  show ((List.map decorateRow (List.filter regionInCoords df)).map (fun r => cellInt r c)).sum = _
  rw [List.map_map]
  apply congrArg List.sum
  apply List.map_congr_left
  intro a _
  show cellInt (decorateRow a) c = cellInt a c
  unfold cellInt
  rw [decorateRow_get?_ne a c h1 h2]

theorem keyTuple_single_inv (c : String) (r : Row) (kv : List Val)
    (h : keyTuple [c] r = some kv) :
    ∃ v, kv = [v] ∧ r.get? c = some v ∧ v ≠ Val.vNone := by
  rw [keyTuple] at h
  cases hg : r.get? c with
  | none => rw [hg] at h; cases h
  | some w =>
      rw [hg] at h
      cases w with
      | vNone => cases h
      | vStr s =>
          rw [keyTuple] at h
          injection h with h
          exact ⟨Val.vStr s, h.symm, rfl, by simp⟩
      | vInt n =>
          rw [keyTuple] at h
          injection h with h
          exact ⟨Val.vInt n, h.symm, rfl, by simp⟩
      | vRat q =>
          rw [keyTuple] at h
          injection h with h
          exact ⟨Val.vRat q, h.symm, rfl, by simp⟩
      | vDate m y =>
          rw [keyTuple] at h
          injection h with h
          exact ⟨Val.vDate m y, h.symm, rfl, by simp⟩

theorem keyTuple_single_none (c : String) (r : Row)
    (h : keyTuple [c] r = none) :
    r.get? c = none ∨ r.get? c = some Val.vNone := by
  rw [keyTuple] at h
  cases hg : r.get? c with
  | none => exact Or.inl rfl
  | some w =>
      rw [hg] at h
      cases w with
      | vNone => exact Or.inr rfl
      | vStr s => rw [keyTuple] at h; cases h
      | vInt n => rw [keyTuple] at h; cases h
      | vRat q => rw [keyTuple] at h; cases h
      | vDate m y => rw [keyTuple] at h; cases h

theorem regionInCoords_congr (r r' : Row)
    (h : r.get? "Region" = r'.get? "Region") : regionInCoords r = regionInCoords r' := by
  unfold regionInCoords
  rw [h]

theorem get?_regionGroupRow (df : DataFrame) (v : Val) :
    (regionGroupRow df [v]).get? "Region" = some v := by
  show Row.get? (("Region", v) :: _) "Region" = some v
  rw [Row.get?, if_pos rfl]

theorem sumVal_groupbySum_filter (df : DataFrame) (P : Row → Bool)
    (hP : ∀ r r' : Row, r.get? "Region" = r'.get? "Region" → P r = P r') :
    sumVal ((groupbySum df ["Region"] "Cases").filter P) "Cases"
      = sumVal (df.filter (fun r => P r && (keyTuple ["Region"] r).isSome)) "Cases" := by
  have hg : groupbySum df ["Region"] "Cases"
      = ((df.filterMap (keyTuple ["Region"])).dedup).map (regionGroupRow df) := rfl
  rw [hg, List.filter_map]
  have hcell : ∀ kv : List Val, cellInt (regionGroupRow df kv) "Cases"
      = sumVal (df.filter (fun r => decide (keyTuple ["Region"] r = some kv))) "Cases" := by
    intro kv
    unfold cellInt regionGroupRow
    rw [Row.get?_zip_append _ _ _ _ (by decide)]
  have hsum1 : sumVal
      ((((df.filterMap (keyTuple ["Region"])).dedup).filter (P ∘ regionGroupRow df)).map (regionGroupRow df))
      "Cases"
      = ((((df.filterMap (keyTuple ["Region"])).dedup).filter (P ∘ regionGroupRow df)).map
          (fun kv =>
            ((df.filter (fun r => decide (keyTuple ["Region"] r = some kv))).map
              (fun r => cellInt r "Cases")).sum)).sum := by
    show (List.map (fun r => cellInt r "Cases") (List.map _ _)).sum = _
    rw [List.map_map]
    apply congrArg List.sum
    apply List.map_congr_left
    intro kv _
    exact hcell kv
  rw [hsum1, sum_over_groups (fun r => cellInt r "Cases") (keyTuple ["Region"]) _
    ((List.nodup_dedup _).filter _) df]
  have hfe : List.filter
      (fun r =>
        match keyTuple ["Region"] r with
        | some kv =>
            decide (kv ∈ ((df.filterMap (keyTuple ["Region"])).dedup).filter (P ∘ regionGroupRow df))
        | none => false) df
      = List.filter (fun r => P r && (keyTuple ["Region"] r).isSome) df := by
    apply List.filter_congr
    intro a ha
    cases h : keyTuple ["Region"] a with
    | none => simp
    | some kv =>
        rcases keyTuple_single_inv "Region" a kv h with ⟨v, hkv, hv, _⟩
        have hmem : kv ∈ (df.filterMap (keyTuple ["Region"])).dedup :=
          List.mem_dedup.mpr (List.mem_filterMap.mpr ⟨a, ha, h⟩)
        have hPeq : P (regionGroupRow df kv) = P a := by
          apply hP
          rw [hkv, get?_regionGroupRow, hv]
        simp only [Option.isSome_some, Bool.and_true]
        cases hq : P a with
        | true =>
            apply decide_eq_true
            apply List.mem_filter.mpr
            exact ⟨hmem, by show P (regionGroupRow df kv) = true; rw [hPeq, hq]⟩
        | false =>
            apply decide_eq_false
            intro hin
            have := (List.mem_filter.mp hin).2
            rw [show ((P ∘ regionGroupRow df) kv = true) = (P (regionGroupRow df kv) = true) from rfl] at this
            rw [hPeq, hq] at this
            cases this
  exact congrArg (fun l => (List.map (fun r => cellInt r "Cases") l).sum) hfe

theorem regionInCoords_and_isSome (r : Row) :
    (regionInCoords r && (keyTuple ["Region"] r).isSome) = regionInCoords r := by
  cases h : r.get? "Region" with
  | none => simp [regionInCoords, keyTuple, h]
  | some w => cases w <;> simp [regionInCoords, keyTuple, h]

theorem hasStrCell_iff (r : Row) (c : String) :
    hasStrCell r c = true ↔ ∃ s, r.get? c = some (Val.vStr s) := by
  cases h : r.get? c with
  | none => simp [hasStrCell, h]
  | some w => cases w <;> simp [hasStrCell, h]

/-- Claim C4: for every record sequence and every year `y`, the sum of the
summed-cases column over the rows of the bubble-map aggregate
(`plot_bubble_map_data`, the map aggregate) equals the sum of `Cases` over
exactly those input records with `Year = y` whose `Region` is a key of the
coordinate table; and, for records whose 'Region' cells are strings, the
sum over the non-map across-years aggregate (`region_totals`) equals the
sum of `Cases` over all input records with no region filtering. -/
theorem claim_C4_aggregate_sums (df : DataFrame) (y : Int) :
    (sumVal (plot_bubble_map_data df y) "Cases"
      = sumVal (df.filter (fun r =>
          decide (r.get? "Year" = some (Val.vInt y)) && regionInCoords r)) "Cases")
    ∧ ((∀ r ∈ df, hasStrCell r "Region" = true) →
        sumVal (region_totals df) "Cases" = sumVal df "Cases") := by
  constructor
  · unfold plot_bubble_map_data
    rw [sumVal_add_coordinates _ _ (by decide) (by decide),
      sumVal_groupbySum_filter _ _ regionInCoords_congr]
    have h1 : List.filter (fun r => regionInCoords r && (keyTuple ["Region"] r).isSome)
        (List.filter (fun r => decide (r.get? "Year" = some (Val.vInt y))) df)
        = List.filter regionInCoords
          (List.filter (fun r => decide (r.get? "Year" = some (Val.vInt y))) df) :=
      List.filter_congr (fun a _ => regionInCoords_and_isSome a)
    rw [h1, List.filter_filter]
    have h2 : List.filter
        (fun a => regionInCoords a && decide (a.get? "Year" = some (Val.vInt y))) df
        = List.filter
        (fun a => decide (a.get? "Year" = some (Val.vInt y)) && regionInCoords a) df :=
      List.filter_congr (fun a _ => Bool.and_comm _ _)
    rw [h2]
  · intro hwf
    unfold region_totals
    rw [sumVal_groupbySum df ["Region"] "Cases" (by decide)]
    have h3 : List.filter (fun r => (keyTuple ["Region"] r).isSome) df = df := by
      apply List.filter_eq_self.mpr
      intro a ha
      rcases (hasStrCell_iff a "Region").mp (hwf a ha) with ⟨s, hs⟩
      simp [keyTuple, hs]
    rw [h3]

/-- Witness for C4 at a concrete record set and year. -/
theorem claim_C4_aggregate_sums_witness :
    (sumVal (plot_bubble_map_data sampleRecords 2019) "Cases"
      = sumVal (sampleRecords.filter (fun r =>
          decide (r.get? "Year" = some (Val.vInt 2019)) && regionInCoords r)) "Cases")
    ∧ sumVal (region_totals sampleRecords) "Cases" = sumVal sampleRecords "Cases" :=
  ⟨(claim_C4_aggregate_sums sampleRecords 2019).1,
   (claim_C4_aggregate_sums sampleRecords 2019).2 (by decide)⟩

theorem deriveRegionRow_ok (r r' : Row) (h : deriveRegionRow r = Except.ok r') :
    ∃ a, r.get? "refArea" = some (Val.vStr a)
      ∧ r' = r.set "Region" (Val.vStr (underscoresToSpaces (lastSegment a))) := by
  unfold deriveRegionRow at h
  cases hg : r.get? "refArea" with
  | none => rw [hg] at h; cases h
  | some w =>
      rw [hg] at h
      cases w with
      | vStr a =>
          injection h with h
          exact ⟨a, rfl, h.symm⟩
      | vInt n => cases h
      | vRat q => cases h
      | vDate m y => cases h
      | vNone => cases h

theorem deriveRegionRow_ok_of (r : Row) (a : String)
    (h : r.get? "refArea" = some (Val.vStr a)) :
    deriveRegionRow r
      = Except.ok (r.set "Region" (Val.vStr (underscoresToSpaces (lastSegment a)))) := by
  unfold deriveRegionRow
  rw [h]

theorem deriveMonthYearRow_ok (r r' : Row) (h : deriveMonthYearRow r = Except.ok r') :
    ∃ p m y, r.get? "refPeriod" = some (Val.vStr p)
      ∧ parseMonthYear (lastSegment p) = some (m, y)
      ∧ r' = r.set "Month-Year" (Val.vDate m y) := by
  cases hg : r.get? "refPeriod" with
  | none => simp [deriveMonthYearRow, hg] at h
  | some w =>
      cases w with
      | vStr p =>
          simp only [deriveMonthYearRow, hg] at h
          cases hp : parseMonthYear (lastSegment p) with
          | none => simp [hp] at h
          | some my =>
              obtain ⟨m, y⟩ := my
              simp [hp] at h
              exact ⟨p, m, y, rfl, hp, h.symm⟩
      | vInt n => simp [deriveMonthYearRow, hg] at h
      | vRat q => simp [deriveMonthYearRow, hg] at h
      | vDate m y => simp [deriveMonthYearRow, hg] at h
      | vNone => simp [deriveMonthYearRow, hg] at h

theorem deriveMonthYearRow_ok_of (r : Row) (p : String) (m y : Nat)
    (hg : r.get? "refPeriod" = some (Val.vStr p))
    (hp : parseMonthYear (lastSegment p) = some (m, y)) :
    deriveMonthYearRow r = Except.ok (r.set "Month-Year" (Val.vDate m y)) := by
  simp [deriveMonthYearRow, hg, hp]

theorem deriveMonthYearRow_error (r : Row) (p : String)
    (hg : r.get? "refPeriod" = some (Val.vStr p))
    (hp : parseMonthYear (lastSegment p) = none) :
    deriveMonthYearRow r = Except.error (LoadError.periodParseError (lastSegment p)) := by
  simp [deriveMonthYearRow, hg, hp]

theorem deriveYearRow_ok (r r' : Row) (h : deriveYearRow r = Except.ok r') :
    ∃ m y, r.get? "Month-Year" = some (Val.vDate m y)
      ∧ r' = r.set "Year" (Val.vInt (Int.ofNat y)) := by
  unfold deriveYearRow at h
  cases hg : r.get? "Month-Year" with
  | none => rw [hg] at h; cases h
  | some w =>
      rw [hg] at h
      cases w with
      | vStr s => cases h
      | vInt n => cases h
      | vRat q => cases h
      | vDate m y =>
          injection h with h
          exact ⟨m, y, rfl, h.symm⟩
      | vNone => cases h

theorem deriveYearRow_ok_of (r : Row) (m y : Nat)
    (hg : r.get? "Month-Year" = some (Val.vDate m y)) :
    deriveYearRow r = Except.ok (r.set "Year" (Val.vInt (Int.ofNat y))) := by
  unfold deriveYearRow
  rw [hg]

theorem aliasRegionRow_get?_Region (r : Row) (s : String)
    (h : r.get? "Region" = some (Val.vStr s)) :
    (aliasRegionRow r).get? "Region" = some (Val.vStr (regionAlias s)) := by
  unfold aliasRegionRow
  rw [h]
  exact Row.get?_set_self r "Region" _

theorem aliasRegionRow_get?_ne (r : Row) (c : String) (h : c ≠ "Region") :
    (aliasRegionRow r).get? c = r.get? c := by
  unfold aliasRegionRow
  cases hg : r.get? "Region" with
  | none => rfl
  | some w =>
      cases w with
      | vStr s => exact Row.get?_set_ne r "Region" c _ h
      | vInt n => rfl
      | vRat q => rfl
      | vDate m y => rfl
      | vNone => rfl

/-- Every row of a successful load traces back to an input row: its
'Region' is the normalized 'refArea', its 'Year' the year parsed from the
'refPeriod' period segment, and the raw columns are carried unchanged. -/
theorem load_ok_rows (df out : DataFrame)
    (h : load_and_process_data (some df) = Except.ok out) :
    ∀ r ∈ out, ∃ r0 ∈ df, ∃ a p m yy,
      r0.get? "refArea" = some (Val.vStr a)
      ∧ r0.get? "refPeriod" = some (Val.vStr p)
      ∧ parseMonthYear (lastSegment p) = some (m, yy)
      ∧ r.get? "refArea" = some (Val.vStr a)
      ∧ r.get? "refPeriod" = some (Val.vStr p)
      ∧ r.get? "Region" = some (Val.vStr (normalizeRegion a))
      ∧ r.get? "Year" = some (Val.vInt (Int.ofNat yy))
      ∧ (r0.get? "Number of cases" = none → r0.get? "Cases" = none →
          r.get? "Cases" = none) := by
  intro r hr
  simp only [load_and_process_data] at h
  split at h
  · cases h
  · split at h
    · cases h
    · split at h
      · cases h
      · rename_i s1 df1 h1 s2 df3 h2 s3 df4 h3
        injection h with h
        subst h
        rcases List.mem_map.mp hr with ⟨r4, hr4, hr4e⟩
        rcases mapE_ok_mem _ _ _ h3 r4 hr4 with ⟨r3, hr3, hY⟩
        rcases deriveYearRow_ok r3 r4 hY with ⟨mY, yY, hMY3, hr4eq⟩
        rcases mapE_ok_mem _ _ _ h2 r3 hr3 with ⟨r2, hr2, hM⟩
        rcases deriveMonthYearRow_ok r2 r3 hM with ⟨p, m, yy, hP2, hparse, hr3eq⟩
        rcases List.mem_map.mp hr2 with ⟨r1, hr1, hr2e⟩
        rcases mapE_ok_mem _ _ _ h1 r1 hr1 with ⟨r0, hr0, hR⟩
        rcases deriveRegionRow_ok r0 r1 hR with ⟨a, hA0, hr1eq⟩
        subst hr4e
        subst hr4eq
        subst hr3eq
        subst hr2e
        subst hr1eq
        have hMY : mY = m ∧ yY = yy := by
          rw [Row.get?_set_self] at hMY3
          injection hMY3 with hMY3
          injection hMY3 with hm hy
          exact ⟨hm.symm, hy.symm⟩
        refine ⟨r0, hr0, a, p, m, yy, hA0, ?_, hparse, ?_, ?_, ?_, ?_, ?_⟩
        · rw [aliasRegionRow_get?_ne _ _ (by decide),
            Row.get?_set_ne _ _ _ _ (by decide)] at hP2
          exact hP2
        · rw [Row.get?_rename_ne _ _ _ _ (by decide) (by decide),
            Row.get?_set_ne _ _ _ _ (by decide),
            Row.get?_set_ne _ _ _ _ (by decide),
            aliasRegionRow_get?_ne _ _ (by decide),
            Row.get?_set_ne _ _ _ _ (by decide)]
          exact hA0
        · rw [Row.get?_rename_ne _ _ _ _ (by decide) (by decide),
            Row.get?_set_ne _ _ _ _ (by decide),
            Row.get?_set_ne _ _ _ _ (by decide)]
          exact hP2
        · rw [Row.get?_rename_ne _ _ _ _ (by decide) (by decide),
            Row.get?_set_ne _ _ _ _ (by decide),
            Row.get?_set_ne _ _ _ _ (by decide),
            aliasRegionRow_get?_Region _ _ (Row.get?_set_self r0 "Region" _)]
          rfl
        · rw [Row.get?_rename_ne _ _ _ _ (by decide) (by decide),
            hMY.2, Row.get?_set_self]
        · intro hnoc hcas
          have h4 : (((aliasRegionRow (r0.set "Region" (Val.vStr (underscoresToSpaces (lastSegment a))))).set
              "Month-Year" (Val.vDate m yy)).set "Year" (Val.vInt (Int.ofNat yY))).get?
              "Number of cases" = none := by
            rw [Row.get?_set_ne _ _ _ _ (by decide), Row.get?_set_ne _ _ _ _ (by decide),
              aliasRegionRow_get?_ne _ _ (by decide), Row.get?_set_ne _ _ _ _ (by decide)]
            exact hnoc
          rw [Row.rename_of_get?_none _ _ _ h4, Row.get?_set_ne _ _ _ _ (by decide),
            Row.get?_set_ne _ _ _ _ (by decide), aliasRegionRow_get?_ne _ _ (by decide),
            Row.get?_set_ne _ _ _ _ (by decide)]
          exact hcas

/-- On a wellformed CSV (string 'refArea'/'refPeriod' cells) whose period
segments all parse, the load succeeds. -/
theorem load_ok_of (df : DataFrame)
    (hwf : ∀ r ∈ df, hasStrCell r "refArea" = true ∧ hasStrCell r "refPeriod" = true)
    (hper : ∀ r ∈ df, ∀ p, r.get? "refPeriod" = some (Val.vStr p) →
      (parseMonthYear (lastSegment p)).isSome = true) :
    ∃ out, load_and_process_data (some df) = Except.ok out := by
  have hs1 : ∃ df1, mapE deriveRegionRow df = Except.ok df1 := by
    apply mapE_ok_of_forall
    intro r hr
    rcases (hasStrCell_iff r "refArea").mp (hwf r hr).1 with ⟨a, ha⟩
    exact ⟨_, deriveRegionRow_ok_of r a ha⟩
  rcases hs1 with ⟨df1, h1⟩
  have hper2 : ∀ r2 ∈ df1.map aliasRegionRow, ∃ p m y,
      r2.get? "refPeriod" = some (Val.vStr p)
      ∧ parseMonthYear (lastSegment p) = some (m, y) := by
    intro r2 hr2
    rcases List.mem_map.mp hr2 with ⟨r1, hr1, hr2e⟩
    rcases mapE_ok_mem _ _ _ h1 r1 hr1 with ⟨r0, hr0, hR⟩
    rcases deriveRegionRow_ok r0 r1 hR with ⟨a, _, hr1eq⟩
    rcases (hasStrCell_iff r0 "refPeriod").mp (hwf r0 hr0).2 with ⟨p, hp⟩
    have hget : r2.get? "refPeriod" = some (Val.vStr p) := by
      rw [← hr2e, aliasRegionRow_get?_ne _ _ (by decide), hr1eq,
        Row.get?_set_ne _ _ _ _ (by decide)]
      exact hp
    rcases Option.isSome_iff_exists.mp (hper r0 hr0 p hp) with ⟨my, hmy⟩
    exact ⟨p, my.1, my.2, hget, by rw [hmy]⟩
  have hs2 : ∃ df3, mapE deriveMonthYearRow (df1.map aliasRegionRow) = Except.ok df3 := by
    apply mapE_ok_of_forall
    intro r2 hr2
    rcases hper2 r2 hr2 with ⟨p, m, y, hget, hparse⟩
    exact ⟨_, deriveMonthYearRow_ok_of r2 p m y hget hparse⟩
  rcases hs2 with ⟨df3, h2⟩
  have hs3 : ∃ df4, mapE deriveYearRow df3 = Except.ok df4 := by
    apply mapE_ok_of_forall
    intro r3 hr3
    rcases mapE_ok_mem _ _ _ h2 r3 hr3 with ⟨r2, _, hM⟩
    rcases deriveMonthYearRow_ok r2 r3 hM with ⟨p, m, y, _, _, hr3eq⟩
    refine ⟨_, deriveYearRow_ok_of r3 m y ?_⟩
    rw [hr3eq]
    exact Row.get?_set_self r2 "Month-Year" _
  rcases hs3 with ⟨df4, h3⟩
  exact ⟨df4.map (fun r => Row.renameCol r "Number of cases" "Cases"),
    by simp only [load_and_process_data, h1, h2, h3]⟩

/-- On a wellformed CSV, a single unparseable period segment makes the
load fail. -/
theorem load_error_of (df : DataFrame)
    (hwf : ∀ r ∈ df, hasStrCell r "refArea" = true ∧ hasStrCell r "refPeriod" = true)
    (r : Row) (hr : r ∈ df) (p : String)
    (hg : r.get? "refPeriod" = some (Val.vStr p))
    (hbad : parseMonthYear (lastSegment p) = none) :
    ∃ e, load_and_process_data (some df) = Except.error e := by
  have hs1 : ∃ df1, mapE deriveRegionRow df = Except.ok df1 := by
    apply mapE_ok_of_forall
    intro r' hr'
    rcases (hasStrCell_iff r' "refArea").mp (hwf r' hr').1 with ⟨a, ha⟩
    exact ⟨_, deriveRegionRow_ok_of r' a ha⟩
  rcases hs1 with ⟨df1, h1⟩
  cases h2 : mapE deriveMonthYearRow (df1.map aliasRegionRow) with
  | error e =>
      exact ⟨e, by simp only [load_and_process_data, h1, h2]⟩
  | ok df3 =>
      exfalso
      rcases mapE_ok_mem_rev _ _ _ h1 r hr with ⟨r1, hr1, hR⟩
      rcases deriveRegionRow_ok r r1 hR with ⟨a, _, hr1eq⟩
      have hr2mem : aliasRegionRow r1 ∈ df1.map aliasRegionRow :=
        List.mem_map.mpr ⟨r1, hr1, rfl⟩
      rcases mapE_ok_mem_rev _ _ _ h2 (aliasRegionRow r1) hr2mem with ⟨r3, _, hM⟩
      have hget : (aliasRegionRow r1).get? "refPeriod" = some (Val.vStr p) := by
        rw [aliasRegionRow_get?_ne _ _ (by decide), hr1eq,
          Row.get?_set_ne _ _ _ _ (by decide)]
        exact hg
      rw [deriveMonthYearRow_error (aliasRegionRow r1) p hget hbad] at hM
      cases hM

/-- Claim C1: for every row of a successful load, 'Region' is derived from
'refArea' by taking the last '/'-segment, replacing underscores with
spaces, and remapping through the fixed alias table (which sends 'North
Governorate' and 'North Lebanon' to 'Tripoli'); in particular a raw area
ending in `Beqaa_Valley` yields 'Beqaa Valley' and one ending in
`North_Lebanon` yields 'Tripoli'. -/
theorem claim_C1_region_normalization (df out : DataFrame)
    (h : load_and_process_data (some df) = Except.ok out) :
    (∀ r ∈ out, ∃ a, r.get? "refArea" = some (Val.vStr a)
      ∧ r.get? "Region" = some (Val.vStr (normalizeRegion a)))
    ∧ regionAlias "North Governorate" = "Tripoli"
    ∧ regionAlias "North Lebanon" = "Tripoli"
    ∧ normalizeRegion "http://ex.org/page/Beqaa_Valley" = "Beqaa Valley"
    ∧ normalizeRegion "http://ex.org/page/North_Lebanon" = "Tripoli" := by
  refine ⟨?_, by decide, by decide, by decide, by decide⟩
  intro r hr
  rcases load_ok_rows df out h r hr with
    ⟨r0, _, a, p, m, yy, _, _, _, hA, _, hReg, _, _⟩
  exact ⟨a, hA, hReg⟩

/-- Witness for C1 on the spec's worked example CSV. -/
theorem claim_C1_region_normalization_witness :
    (∀ r ∈ sampleLoaded, ∃ a, r.get? "refArea" = some (Val.vStr a)
      ∧ r.get? "Region" = some (Val.vStr (normalizeRegion a)))
    ∧ regionAlias "North Governorate" = "Tripoli"
    ∧ regionAlias "North Lebanon" = "Tripoli"
    ∧ normalizeRegion "http://ex.org/page/Beqaa_Valley" = "Beqaa Valley"
    ∧ normalizeRegion "http://ex.org/page/North_Lebanon" = "Tripoli" :=
  claim_C1_region_normalization sampleCSV sampleLoaded (by rfl)

/-- Claim C2: for every row of a successful load whose 'refPeriod' final
path segment parses as `MM-YYYY`, the derived integer 'Year' cell equals
the year component of that segment (every loaded row is of this form). -/
theorem claim_C2_year_derivation (df out : DataFrame)
    (h : load_and_process_data (some df) = Except.ok out) :
    ∀ r ∈ out, ∃ p m y, r.get? "refPeriod" = some (Val.vStr p)
      ∧ parseMonthYear (lastSegment p) = some (m, y)
      ∧ r.get? "Year" = some (Val.vInt (Int.ofNat y)) := by
  intro r hr
  rcases load_ok_rows df out h r hr with
    ⟨r0, _, a, p, m, yy, _, _, hparse, _, hP, _, hY, _⟩
  exact ⟨p, m, yy, hP, hparse, hY⟩

/-- Witness for C2 on the first loaded row of the spec's worked example
CSV. -/
theorem claim_C2_year_derivation_witness :
    ∃ p m y, (sampleLoaded.getD 0 []).get? "refPeriod" = some (Val.vStr p)
      ∧ parseMonthYear (lastSegment p) = some (m, y)
      ∧ (sampleLoaded.getD 0 []).get? "Year" = some (Val.vInt (Int.ofNat y)) :=
  claim_C2_year_derivation sampleCSV sampleLoaded (by rfl)
    (sampleLoaded.getD 0 []) (by decide)

/-- Claim C3: on a wellformed CSV (string 'refArea'/'refPeriod' cells),
the load fails exactly when the file is missing/unreadable or some row's
period segment does not parse as `MM-YYYY`; on failure no record sequence
is returned (the error carries no rows, so there is no partial load and no
per-row skip).  `13-2019` and `foo` are unparseable, and a missing file is
a `LoadError`. -/
theorem claim_C3_load_failure (fileInput : Option DataFrame)
    (hwf : ∀ df, fileInput = some df →
      ∀ r ∈ df, hasStrCell r "refArea" = true ∧ hasStrCell r "refPeriod" = true) :
    ((∃ e, load_and_process_data fileInput = Except.error e) ↔
      (fileInput = none ∨ ∃ df, fileInput = some df ∧ ∃ r ∈ df, ∃ p,
        r.get? "refPeriod" = some (Val.vStr p)
        ∧ parseMonthYear (lastSegment p) = none))
    ∧ parseMonthYear "13-2019" = none
    ∧ parseMonthYear "foo" = none
    ∧ load_and_process_data none = Except.error LoadError.fileMissing := by
  refine ⟨?_, by decide, by decide, rfl⟩
  cases fileInput with
  | none =>
      constructor
      · intro _; exact Or.inl rfl
      · intro _; exact ⟨LoadError.fileMissing, rfl⟩
  | some df =>
      have hw := hwf df rfl
      constructor
      · rintro ⟨e, he⟩
        right
        refine ⟨df, rfl, ?_⟩
        by_contra hno
        push_neg at hno
        have hper : ∀ r ∈ df, ∀ p, r.get? "refPeriod" = some (Val.vStr p) →
            (parseMonthYear (lastSegment p)).isSome = true := by
          intro r hr p hp
          exact Option.ne_none_iff_isSome.mp (hno r hr p hp)
        rcases load_ok_of df hw hper with ⟨out, hout⟩
        rw [hout] at he
        cases he
      · rintro (hnone | ⟨df', hdf', r, hr, p, hg, hbad⟩)
        · cases hnone
        · injection hdf' with hdf'
          subst hdf'
          exact load_error_of df hw r hr p hg hbad

/-- Witness for C3 on a CSV with period segment `13-2019`. -/
theorem claim_C3_load_failure_witness :
    ((∃ e, load_and_process_data (some badPeriodCSV) = Except.error e) ↔
      (some badPeriodCSV = none ∨ ∃ df, some badPeriodCSV = some df ∧ ∃ r ∈ df, ∃ p,
        r.get? "refPeriod" = some (Val.vStr p)
        ∧ parseMonthYear (lastSegment p) = none))
    ∧ parseMonthYear "13-2019" = none
    ∧ parseMonthYear "foo" = none
    ∧ load_and_process_data none = Except.error LoadError.fileMissing :=
  claim_C3_load_failure (some badPeriodCSV)
    (by intro df hdf; injection hdf with hdf; subst hdf; decide)

/-- Claim C10: if the CSV is wellformed, every period segment parses, and
the file has no 'Number of cases' column (and no 'Cases' column), the load
still succeeds — the rename step is a silent no-op — and the returned
record set has no 'Cases' column at all. -/
theorem claim_C10_missing_cases_column (df : DataFrame)
    (hwf : ∀ r ∈ df, hasStrCell r "refArea" = true ∧ hasStrCell r "refPeriod" = true)
    (hper : ∀ r ∈ df, ∀ p, r.get? "refPeriod" = some (Val.vStr p) →
      (parseMonthYear (lastSegment p)).isSome = true)
    (hnc : ∀ r ∈ df, r.get? "Number of cases" = none ∧ r.get? "Cases" = none) :
    ∃ out, load_and_process_data (some df) = Except.ok out
      ∧ ∀ r ∈ out, r.get? "Cases" = none := by
  rcases load_ok_of df hwf hper with ⟨out, hout⟩
  refine ⟨out, hout, ?_⟩
  intro r hr
  rcases load_ok_rows df out hout r hr with
    ⟨r0, hr0, a, p, m, yy, _, _, _, _, _, _, _, hcase⟩
  exact hcase (hnc r0 hr0).1 (hnc r0 hr0).2

/-- Witness for C10 on a CSV whose count column is named 'case count'. -/
theorem claim_C10_missing_cases_column_witness :
    ∃ out, load_and_process_data (some noCasesCSV) = Except.ok out
      ∧ ∀ r ∈ out, r.get? "Cases" = none :=
  claim_C10_missing_cases_column noCasesCSV (by decide)
    (by
      intro r hr p hp
      simp only [noCasesCSV, List.mem_singleton] at hr
      subst hr
      have hp' : some (Val.vStr "x/02-2020") = some (Val.vStr p) := hp
      injection hp' with h1
      injection h1 with h2
      subst h2
      decide)
    (by decide)

/-- Claim C5: `add_coordinates` returns a strict subset filter of its
input: the output is exactly the input rows whose 'Region' is a key of
the coordinate table, each now carrying that region's latitude and
longitude; rows with a table-absent region are excluded and no others;
the function is total (no failure mode). -/
theorem claim_C5_with_coordinates (df : DataFrame) :
    add_coordinates df = (df.filter regionInCoords).map decorateRow
    ∧ (∀ r ∈ df, regionInCoords r = true ↔
        ∃ s la lo, r.get? "Region" = some (Val.vStr s) ∧ coordsOf s = some (la, lo))
    ∧ ∀ r2 ∈ add_coordinates df, ∃ s la lo,
        r2.get? "Region" = some (Val.vStr s) ∧ coordsOf s = some (la, lo)
        ∧ r2.get? "lat" = some (Val.vRat la) ∧ r2.get? "lon" = some (Val.vRat lo) := by
  have hiff : ∀ r : Row, regionInCoords r = true ↔
      ∃ s la lo, r.get? "Region" = some (Val.vStr s) ∧ coordsOf s = some (la, lo) := by
    intro r
    cases h : r.get? "Region" with
    | none => simp [regionInCoords, h]
    | some w =>
        cases w with
        | vStr s =>
            cases hc : coordsOf s with
            | none => simp [regionInCoords, h, hc]
            | some c =>
                simp [regionInCoords, h, hc]
                exact ⟨c.1, c.2, rfl⟩
        | vInt n => simp [regionInCoords, h]
        | vRat q => simp [regionInCoords, h]
        | vDate m y => simp [regionInCoords, h]
        | vNone => simp [regionInCoords, h]
  refine ⟨add_coordinates_eq df, fun r _ => hiff r, ?_⟩
  intro r2 hr2
  rw [add_coordinates_eq] at hr2
  rcases List.mem_map.mp hr2 with ⟨r, hrf, hre⟩
  have hrc := (List.mem_filter.mp hrf).2
  rcases (hiff r).mp hrc with ⟨s, la, lo, hs, hc⟩
  subst hre
  refine ⟨s, la, lo, ?_, hc, ?_, ?_⟩
  · rw [decorateRow_get?_ne _ _ (by decide) (by decide)]
    exact hs
  · rw [decorateRow_get?_lat]
    simp [latOf, hs, hc]
  · rw [decorateRow_get?_lon]
    simp [lonOf, hs, hc]

/-- Witness for C5 at a concrete record set and row. -/
theorem claim_C5_with_coordinates_witness :
    (add_coordinates sampleRecords = (sampleRecords.filter regionInCoords).map decorateRow)
    ∧ (regionInCoords beirutRow = true ↔
        ∃ s la lo, beirutRow.get? "Region" = some (Val.vStr s) ∧ coordsOf s = some (la, lo))
    ∧ ∃ s la lo, (decorateRow beirutRow).get? "Region" = some (Val.vStr s)
        ∧ coordsOf s = some (la, lo)
        ∧ (decorateRow beirutRow).get? "lat" = some (Val.vRat la)
        ∧ (decorateRow beirutRow).get? "lon" = some (Val.vRat lo) :=
  ⟨(claim_C5_with_coordinates sampleRecords).1,
   (claim_C5_with_coordinates sampleRecords).2.1 beirutRow (by decide),
   (claim_C5_with_coordinates sampleRecords).2.2 (decorateRow beirutRow)
     (by
       rw [add_coordinates_eq]
       exact List.mem_map.mpr ⟨beirutRow, by decide, rfl⟩)⟩

/-- Claim C7 is false on the code: `add_coordinates` mutates its argument
in place.  On a frame whose region is not in the table, the two column
assignments leave the passed dataframe object with added 'lat'/'lon'
cells, so the input is not unchanged. -/
theorem claim_C7_counterexample :
    ¬ (add_coordinates_state parisFrame = parisFrame) := by decide

/-- Amended C7: `add_coordinates` mutates its argument by the two
in-place column assignments (adding or overwriting 'lat' and 'lon'); the
mutation preserves the row count and every other column's cells, and the
returned value is the `dropna`-filtered copy of the mutated input. -/
theorem claim_C7_mutation_frame (df : DataFrame) :
    add_coordinates_state df = df.map decorateRow
    ∧ (add_coordinates_state df).length = df.length
    ∧ (∀ r ∈ df, ∀ c, c ≠ "lat" → c ≠ "lon" → (decorateRow r).get? c = r.get? c)
    ∧ add_coordinates df = dropnaLatLon (add_coordinates_state df) :=
  ⟨rfl, by simp [add_coordinates_state],
   fun r _ c h1 h2 => decorateRow_get?_ne r c h1 h2, rfl⟩

/-- Witness for the amended C7 at a concrete frame and column. -/
theorem claim_C7_mutation_frame_witness :
    (add_coordinates_state parisFrame).length = parisFrame.length
    ∧ (decorateRow [("Region", Val.vStr "Paris"), ("Cases", Val.vInt 3)]).get? "Cases"
        = Row.get? [("Region", Val.vStr "Paris"), ("Cases", Val.vInt 3)] "Cases" :=
  ⟨(claim_C7_mutation_frame parisFrame).2.1,
   (claim_C7_mutation_frame parisFrame).2.2.1
     [("Region", Val.vStr "Paris"), ("Cases", Val.vInt 3)] (by decide)
     "Cases" (by decide) (by decide)⟩

/-- Claim C6 is false on the code: the load does not confine 'Region' to
the coordinate table's keys.  A raw area `x/Paris` loads successfully and
yields region 'Paris', which is not a key of `REGION_COORDS`. -/
theorem claim_C6_counterexample :
    load_and_process_data (some parisCSV) = Except.ok parisLoaded
    ∧ ∃ r ∈ parisLoaded, r.get? "Region" = some (Val.vStr "Paris")
        ∧ coordsOf "Paris" = none :=
  ⟨rfl, by decide⟩

/-- Amended C6: a loaded row's 'Region' lies in the coordinate table's
key set provided its raw area's normalized last segment is one of the 8
keys or one of the two aliases ('North Governorate', 'North Lebanon');
the load itself enforces no closed set, and other region values pass
through unchanged (they are excluded only from map outputs). -/
theorem claim_C6_amended_regions_closed (df out : DataFrame)
    (h : load_and_process_data (some df) = Except.ok out)
    (hin : ∀ r ∈ df, ∀ a, r.get? "refArea" = some (Val.vStr a) →
      (underscoresToSpaces (lastSegment a) ∈ coordKeys
        ∨ underscoresToSpaces (lastSegment a) ∈ ["North Governorate", "North Lebanon"])) :
    ∀ r ∈ out, ∃ s, r.get? "Region" = some (Val.vStr s) ∧ s ∈ coordKeys := by
  intro r hr
  rcases load_ok_rows df out h r hr with
    ⟨r0, hr0, a, p, m, yy, hA0, _, _, _, _, hReg, _, _⟩
  refine ⟨normalizeRegion a, hReg, ?_⟩
  rcases hin r0 hr0 a hA0 with hk | hal
  · have hkeys : ∀ t ∈ coordKeys, regionAlias t ∈ coordKeys := by decide
    exact hkeys _ hk
  · show regionAlias (underscoresToSpaces (lastSegment a)) ∈ coordKeys
    rcases List.mem_cons.mp hal with he | he
    · rw [he]; decide
    · rw [List.mem_singleton] at he
      rw [he]; decide

/-- Witness for the amended C6 on the first loaded row of the spec's
worked example CSV. -/
theorem claim_C6_amended_regions_closed_witness :
    ∃ s, (sampleLoaded.getD 0 []).get? "Region" = some (Val.vStr s) ∧ s ∈ coordKeys :=
  claim_C6_amended_regions_closed sampleCSV sampleLoaded (by rfl)
    (by
      intro r hr a ha
      simp only [sampleCSV, List.mem_cons, List.not_mem_nil, or_false] at hr
      rcases hr with rfl | rfl
      · have ha' : some (Val.vStr "http://ex.org/page/Beqaa_Valley") = some (Val.vStr a) := ha
        injection ha' with h1
        injection h1 with h2
        subst h2
        decide
      · have ha' : some (Val.vStr "http://ex.org/page/North_Lebanon") = some (Val.vStr a) := ha
        injection ha' with h1
        injection h1 with h2
        subst h2
        decide)
    (sampleLoaded.getD 0 []) (by decide)

theorem keyTuple_cons (k : String) (kt : List String) (r : Row) (kv : List Val) :
    keyTuple (k :: kt) r = some kv ↔
      ∃ v vs, r.get? k = some v ∧ v ≠ Val.vNone
        ∧ keyTuple kt r = some vs ∧ kv = v :: vs := by
  rw [keyTuple]
  cases h1 : r.get? k with
  | none => simp
  | some w =>
      cases w with
      | vNone => simp
      | vStr s =>
          cases h2 : keyTuple kt r with
          | none => simp
          | some vs => simp [eq_comm]
      | vInt n =>
          cases h2 : keyTuple kt r with
          | none => simp
          | some vs => simp [eq_comm]
      | vRat q =>
          cases h2 : keyTuple kt r with
          | none => simp
          | some vs => simp [eq_comm]
      | vDate m yy =>
          cases h2 : keyTuple kt r with
          | none => simp
          | some vs => simp [eq_comm]

theorem keyTuple_year_region (r : Row) (y : Int) (s : String) :
    keyTuple ["Year", "Region"] r = some [Val.vInt y, Val.vStr s] ↔
      (r.get? "Year" = some (Val.vInt y) ∧ r.get? "Region" = some (Val.vStr s)) := by
  rw [keyTuple_cons]
  constructor
  · rintro ⟨v, vs, hY, _, hrec, hkv⟩
    injection hkv with h1 h2
    subst h1
    subst h2
    rcases (keyTuple_single "Region" r (Val.vStr s)).mp hrec with ⟨hR, _⟩
    exact ⟨hY, hR⟩
  · rintro ⟨hY, hR⟩
    exact ⟨Val.vInt y, [Val.vStr s], hY, by simp,
      (keyTuple_single "Region" r (Val.vStr s)).mpr ⟨hR, by simp⟩, rfl⟩

theorem keyTuple_length : ∀ (ks : List String) (r : Row) (kv : List Val),
    keyTuple ks r = some kv → kv.length = ks.length := by
  intro ks
  induction ks with
  | nil =>
      intro r kv h
      rw [keyTuple] at h
      injection h with h
      subst h
      rfl
  | cons k kt ih =>
      intro r kv h
      rcases (keyTuple_cons k kt r kv).mp h with ⟨v, vs, _, _, hrec, hkv⟩
      subst hkv
      simp [ih r vs hrec]

theorem dedup_const {α : Type} [DecidableEq α] (l : List α) (e : α)
    (hne : l ≠ []) (h : ∀ x ∈ l, x = e) : l.dedup = [e] := by
  have hall : ∀ x ∈ l.dedup, x = e := fun x hx => h x (List.mem_dedup.mp hx)
  have hmem : e ∈ l.dedup := by
    apply List.mem_dedup.mpr
    cases l with
    | nil => exact absurd rfl hne
    | cons a t =>
        have ha := h a (List.mem_cons_self a t)
        rw [← ha]
        exact List.mem_cons_self a t
  have hnd := List.nodup_dedup l
  cases hd : l.dedup with
  | nil => rw [hd] at hmem; exact absurd hmem (List.not_mem_nil e)
  | cons x tl =>
      rw [hd] at hall hnd
      have hx : x = e := hall x (List.mem_cons_self x tl)
      cases tl with
      | nil => rw [hx]
      | cons x2 t2 =>
          have hx2 : x2 = e := hall x2 (List.mem_cons_of_mem x (List.mem_cons_self x2 t2))
          exfalso
          have hnotin := (List.nodup_cons.mp hnd).1
          rw [hx, hx2] at hnotin
          exact hnotin (List.mem_cons_self e t2)

theorem mem_groupbySum (df : DataFrame) (ks : List String) (vc : String) (row : Row) :
    row ∈ groupbySum df ks vc ↔
      ∃ kv, (∃ rec ∈ df, keyTuple ks rec = some kv)
        ∧ row = (ks.zip kv) ++
            [(vc, Val.vInt (sumVal (df.filter (fun r => decide (keyTuple ks r = some kv))) vc))] := by
  unfold groupbySum
  rw [List.mem_map]
  constructor
  · rintro ⟨kv, hkv, heq⟩
    refine ⟨kv, ?_, heq.symm⟩
    rcases List.mem_filterMap.mp (List.mem_dedup.mp hkv) with ⟨rec, hrec, hk⟩
    exact ⟨rec, hrec, hk⟩
  · rintro ⟨kv, ⟨rec, hrec, hk⟩, heq⟩
    exact ⟨kv, List.mem_dedup.mpr (List.mem_filterMap.mpr ⟨rec, hrec, hk⟩), heq.symm⟩

/-- Claim C8: the line-chart aggregate contains a row for region `s` and
year `y` with total `t` if and only if `s` is among the selected regions,
at least one input record has that region and year, and `t` is the sum of
`Cases` over exactly those records; a (region, year) pair with no records
is absent, never present with a zero total. -/
theorem claim_C8_line_aggregate (df : DataFrame) (regions : List String)
    (y t : Int) (s : String) :
    lineRow y s t ∈ lineAgg df regions ↔
      (s ∈ regions
       ∧ (∃ rec ∈ df, rec.get? "Region" = some (Val.vStr s)
            ∧ rec.get? "Year" = some (Val.vInt y))
       ∧ t = sumVal (df.filter (fun rec =>
           decide (rec.get? "Region" = some (Val.vStr s))
             && decide (rec.get? "Year" = some (Val.vInt y)))) "Cases") := by
  have hsum : s ∈ regions →
      sumVal ((df.filter (fun r =>
          match r.get? "Region" with
          | some (Val.vStr s') => decide (s' ∈ regions)
          | _ => false)).filter
        (fun rec => decide (keyTuple ["Year", "Region"] rec
          = some [Val.vInt y, Val.vStr s]))) "Cases"
        = sumVal (df.filter (fun rec =>
            decide (rec.get? "Region" = some (Val.vStr s))
              && decide (rec.get? "Year" = some (Val.vInt y)))) "Cases" := by
    intro hs
    rw [List.filter_filter]
    apply congrArg (fun l => sumVal l "Cases")
    apply List.filter_congr
    intro a _
    by_cases hk : keyTuple ["Year", "Region"] a = some [Val.vInt y, Val.vStr s]
    · rcases (keyTuple_year_region a y s).mp hk with ⟨hYa, hRa⟩
      have hisin : (match a.get? "Region" with
          | some (Val.vStr s') => decide (s' ∈ regions)
          | _ => false) = true := by
        simp [hRa, decide_eq_true hs]
      rw [decide_eq_true hk, hisin, decide_eq_true hRa, decide_eq_true hYa]
    · have hno : ¬(a.get? "Region" = some (Val.vStr s)
          ∧ a.get? "Year" = some (Val.vInt y)) :=
        fun hc => hk ((keyTuple_year_region a y s).mpr ⟨hc.2, hc.1⟩)
      rw [decide_eq_false hk, Bool.false_and]
      cases hA : decide (a.get? "Region" = some (Val.vStr s)) with
      | false => rw [Bool.false_and]
      | true =>
          cases hB : decide (a.get? "Year" = some (Val.vInt y)) with
          | false => rw [Bool.and_false]
          | true =>
              exact absurd ⟨of_decide_eq_true hA, of_decide_eq_true hB⟩ hno
  unfold lineAgg
  rw [mem_groupbySum]
  constructor
  · rintro ⟨kv, ⟨rec, hrecf, hk⟩, heq⟩
    rcases List.length_eq_two.mp (keyTuple_length _ _ _ hk) with ⟨v1, v2, rfl⟩
    simp only [lineRow, List.zip_cons_cons, List.zip_nil_right, List.nil_append,
      List.cons_append, List.cons.injEq, Prod.mk.injEq, Val.vInt.injEq, true_and,
      and_true] at heq
    rcases heq with ⟨hv1, hv2, ht⟩
    subst hv1
    subst hv2
    rcases (keyTuple_year_region rec y s).mp hk with ⟨hYrec, hRrec⟩
    rcases List.mem_filter.mp hrecf with ⟨hrecdf, hisin⟩
    have hs : s ∈ regions := by
      rw [hRrec] at hisin
      exact of_decide_eq_true hisin
    exact ⟨hs, ⟨rec, hrecdf, hRrec, hYrec⟩, ht.trans (hsum hs)⟩
  · rintro ⟨hs, ⟨rec, hrecdf, hR, hY⟩, ht⟩
    refine ⟨[Val.vInt y, Val.vStr s],
      ⟨rec, ?_, (keyTuple_year_region rec y s).mpr ⟨hY, hR⟩⟩, ?_⟩
    · refine List.mem_filter.mpr ⟨hrecdf, ?_⟩
      simp [hR, decide_eq_true hs]
    · have hteq : t = sumVal ((df.filter (fun r =>
          match r.get? "Region" with
          | some (Val.vStr s') => decide (s' ∈ regions)
          | _ => false)).filter
          (fun rec => decide (keyTuple ["Year", "Region"] rec
            = some [Val.vInt y, Val.vStr s]))) "Cases" := ht.trans (hsum hs).symm
      rw [hteq]
      rfl

/-- Claim C9: over a record set holding a single region (spread across
any number of years, in particular two), the across-years aggregate
returns exactly one row for that region whose total is the sum of `Cases`
over the whole set. -/
theorem claim_C9_across_years_single_region (df : DataFrame) (r0 : String)
    (hne : df ≠ [])
    (hall : ∀ rec ∈ df, rec.get? "Region" = some (Val.vStr r0)) :
    region_totals df
      = [[("Region", Val.vStr r0), ("Cases", Val.vInt (sumVal df "Cases"))]] := by
  have hκ : ∀ rec ∈ df, keyTuple ["Region"] rec = some [Val.vStr r0] := by
    intro rec hrec
    exact (keyTuple_single "Region" rec (Val.vStr r0)).mpr ⟨hall rec hrec, by simp⟩
  have hfm : df.filterMap (keyTuple ["Region"]) ≠ [] := by
    cases df with
    | nil => exact absurd rfl hne
    | cons a tl =>
        intro hcontra
        have hmem : [Val.vStr r0] ∈ List.filterMap (keyTuple ["Region"]) (a :: tl) :=
          List.mem_filterMap.mpr ⟨a, List.mem_cons_self a tl, hκ a (List.mem_cons_self a tl)⟩
        rw [hcontra] at hmem
        exact List.not_mem_nil _ hmem
  have hconst : ∀ x ∈ df.filterMap (keyTuple ["Region"]), x = [Val.vStr r0] := by
    intro x hx
    rcases List.mem_filterMap.mp hx with ⟨rec, hrec, hxeq⟩
    rw [hκ rec hrec] at hxeq
    injection hxeq with hxeq
    exact hxeq.symm
  have hdd : (df.filterMap (keyTuple ["Region"])).dedup = [[Val.vStr r0]] :=
    dedup_const _ _ hfm hconst
  have hfilter : df.filter
      (fun r => decide (keyTuple ["Region"] r = some [Val.vStr r0])) = df :=
    List.filter_eq_self.mpr (fun a ha => decide_eq_true (hκ a ha))
  unfold region_totals groupbySum
  rw [hdd, List.map_cons, List.map_nil, hfilter]
  rfl

/-- Witness for C9 at two years of Beqaa Valley records. -/
theorem claim_C9_across_years_single_region_witness :
    region_totals twoYearRecords
      = [[("Region", Val.vStr "Beqaa Valley"),
          ("Cases", Val.vInt (sumVal twoYearRecords "Cases"))]] :=
  claim_C9_across_years_single_region twoYearRecords "Beqaa Valley"
    (by decide) (by decide)

/-- Witness for C8: the concrete Beirut/2019 row appears in the
line-chart aggregate with the expected total. -/
theorem claim_C8_line_aggregate_witness :
    lineRow 2019 "Beirut" 5 ∈ lineAgg sampleRecords ["Beirut"] :=
  (claim_C8_line_aggregate sampleRecords ["Beirut"] 2019 5 "Beirut").mpr
    ⟨by decide, ⟨beirutRow, by decide, by decide, by decide⟩, by decide⟩
